import Mathlib

/-!
Shallow embedding of `scripts/analyze_containers.py` (binhex-lab-edgegw):
the container classification engine for migration planning.

Strings are modelled with Lean `String`; all character-level operations
(case folding, substring search, splitting) work on `String.data : List Char`
so that every definition evaluates in the kernel.

A Docker inspect record is modelled by `ContainerRecord`.  Fields that the
Python code reads with `.get(..., {})`/`or {}` (labels, env, ports, exposed
ports, networks) are `Option`-valued: `none` models an absent key or a JSON
`null`, and the accessors default it to the empty collection exactly as the
Python does.  A port's binding list that is JSON `null` is modelled by `[]`
(both are falsy in Python and never observed apart).
-/

/-- Lower-case a string, as Python `str.lower()` on ASCII, yielding its
character list. -/
def lowerStr (s : String) : List Char :=
  s.data.map Char.toLower

/-- Here `containsSub s pat` is Python `pat in s` (substring containment). -/
def containsSub (s pat : List Char) : Bool :=
  match s with
  | [] => pat.isEmpty
  | _ :: t => pat.isPrefixOf s || containsSub t pat

/-- Python `d.get(k)` on a dict modelled as an association list. -/
def lookupAssoc (m : List (String × String)) (k : String) : Option String :=
  (m.find? (fun p => p.1 == k)).map (fun p => p.2)

/-- Python dict assignment `d[k] = v`: update the (first) entry with key `k`
in place, or append a new entry. -/
def insertAssoc : List (String × String) → String → String → List (String × String)
  | [], k, v => [(k, v)]
  | p :: ps, k, v => if p.1 = k then (p.1, v) :: ps else p :: insertAssoc ps k v

/-- First-some choice on options. -/
def optOr (a b : Option String) : Option String :=
  match a with
  | some v => some v
  | none => b

/-- Python `port.split('/')[0]`: the part of a port spec before the first
`/`. -/
def portNum (p : String) : String :=
  String.mk (p.data.takeWhile (fun ch => ch != '/'))

/-- One host binding of a published port: (HostIp, HostPort). -/
abbrev Binding := String × String

/-- A Docker inspect record, restricted to the keys the script reads. -/
structure ContainerRecord where
  id : String
  name : String
  image : String
  status : String
  labels : Option (List (String × String))
  env : Option (List String)
  ports : Option (List (String × List Binding))
  exposedPorts : Option (List String)
  networks : Option (List String)

/-- Source: `container['Config'].get('Labels', {}) or {}`. -/
def recLabels (c : ContainerRecord) : List (String × String) :=
  c.labels.getD []

/-- Source: `container['Config'].get('Env', []) or []`. -/
def recEnvList (c : ContainerRecord) : List String :=
  c.env.getD []

/-- Source: `container.get('NetworkSettings', {}).get('Ports', {}) or {}`. -/
def recPorts (c : ContainerRecord) : List (String × List Binding) :=
  c.ports.getD []

/-- Source: `container['Config'].get('ExposedPorts', {}) or {}` (keys only). -/
def recExposed (c : ContainerRecord) : List String :=
  c.exposedPorts.getD []

/-- Source: the key list of `container.get('NetworkSettings', {}).get('Networks', {}) or {}`. -/
def recNetworks (c : ContainerRecord) : List String :=
  c.networks.getD []

/-- The `REVERSE_PROXY_IMAGES` constant. -/
def REVERSE_PROXY_IMAGES : List String :=
  ["traefik", "nginx", "caddy", "haproxy", "envoy",
   "nginx-proxy-manager", "kong", "istio", "jwilder/nginx-proxy",
   "nginxproxy/nginx-proxy", "lucaslorentz/caddy-docker-proxy"]

/-- The `PROXY_NETWORK_PATTERNS` constant. -/
def PROXY_NETWORK_PATTERNS : List String :=
  ["traefik", "edge", "ingress", "proxy", "gateway"]

/-- The `HTTP_SERVICE_PORTS` constant. -/
def HTTP_SERVICE_PORTS : List String :=
  ["80", "443", "8080", "8443", "3000", "5000", "8000", "8888", "9000"]

/-- The `nginx_proxy_vars` list in `detect_proxy_signals`. -/
def NGINX_PROXY_VARS : List String :=
  ["VIRTUAL_HOST", "VIRTUAL_PORT", "LETSENCRYPT_HOST", "LETSENCRYPT_EMAIL"]

/-- The `web_patterns` list in `is_http_service`. -/
def WEB_PATTERNS : List String :=
  ["web", "api", "http", "nginx", "apache", "flask", "django",
   "express", "node", "react", "next"]

/-- The `stateful` list in `analyze_risks`. -/
def STATEFUL_IMAGES : List String :=
  ["postgres", "mysql", "mariadb", "redis", "mongo", "elasticsearch"]

/-- Source: `'80/tcp' in ports and ports['80/tcp']`: the key is present and its
binding list is non-empty (a `null` binding list is modelled by `[]`). -/
def portHasBindings (c : ContainerRecord) (p : String) : Bool :=
  match (recPorts c).find? (fun q => q.1 == p) with
  | some q => !q.2.isEmpty
  | none => false

/-- Function `is_reverse_proxy` from the source. -/
def is_reverse_proxy (c : ContainerRecord) : Bool :=
  let image := lowerStr c.image
  if REVERSE_PROXY_IMAGES.any (fun p => containsSub image p.data) then true
  else
    let has_80 := portHasBindings c "80/tcp"
    let has_443 := portHasBindings c "443/tcp"
    if has_80 && has_443 then
      let labels := recLabels c
      if containsSub image "traefik".data
          || labels.any (fun kv => containsSub (lowerStr kv.1) "traefik".data) then
        true
      else false
    else false

/-- One environment entry folded into the env dict: skip entries with no
`=`, otherwise split on the first `=` and assign (`detect_proxy_signals`,
lines 83-86). -/
def envStep (m : List (String × String)) (e : String) : List (String × String) :=
  match e.data.dropWhile (fun ch => ch != '=') with
  | [] => m
  | _ :: v =>
    insertAssoc m (String.mk (e.data.takeWhile (fun ch => ch != '='))) (String.mk v)

/-- The env-list-to-dict parse of `detect_proxy_signals` (lines 82-86). -/
def parseEnv (es : List String) : List (String × String) :=
  es.foldl envStep []

/-- The `signals` dict returned by `detect_proxy_signals`. -/
structure ProxySignals where
  traefik_labels : List (String × String)
  nginx_proxy_env : List (String × String)
  caddy_labels : List (String × String)
  has_proxy_signals : Bool
deriving DecidableEq

/-- Function `detect_proxy_signals` from the source: the three subset scans set the
aggregate flag exactly when they insert, so the flag is the disjunction of
the three non-emptiness tests. -/
def detect_proxy_signals (c : ContainerRecord) : ProxySignals :=
  let labels := recLabels c
  let env := parseEnv (recEnvList c)
  let traefik_labels := labels.filter (fun kv => "traefik.".data.isPrefixOf kv.1.data)
  let nginx_proxy_env :=
    NGINX_PROXY_VARS.filterMap (fun v => (lookupAssoc env v).map (fun x => (v, x)))
  let caddy_labels := labels.filter (fun kv =>
    "caddy".data.isPrefixOf kv.1.data || containsSub (lowerStr kv.1) "caddy.reverse_proxy".data)
  { traefik_labels := traefik_labels,
    nginx_proxy_env := nginx_proxy_env,
    caddy_labels := caddy_labels,
    has_proxy_signals :=
      !traefik_labels.isEmpty || !nginx_proxy_env.isEmpty || !caddy_labels.isEmpty }

/-- Function `get_published_ports` from the source: keep ports with a non-empty
binding list, rendering each binding as "HostIp:HostPort". -/
def get_published_ports (c : ContainerRecord) : List (String × List String) :=
  (recPorts c).filterMap (fun pb =>
    if pb.2.isEmpty then none
    else some (pb.1, pb.2.map (fun b => b.1 ++ ":" ++ b.2)))

/-- Function `get_exposed_ports` from the source. -/
def get_exposed_ports (c : ContainerRecord) : List String :=
  recExposed c

/-- Function `is_in_proxy_network` from the source. -/
def is_in_proxy_network (networks : List String) : Bool :=
  networks.any (fun net =>
    PROXY_NETWORK_PATTERNS.any (fun pat => containsSub (lowerStr net) pat.data))

/-- Rule 1 condition of `classify_container` (lines 152-155): Traefik label
subset non-empty and (`traefik.enable` lower-cased equals "true", or the
container is in a proxy-pattern network). -/
def traefikRuleMatches (c : ContainerRecord) : Bool :=
  !(detect_proxy_signals c).traefik_labels.isEmpty
    && (lowerStr ((lookupAssoc (detect_proxy_signals c).traefik_labels "traefik.enable").getD "")
          == "true".data
        || is_in_proxy_network (recNetworks c))

/-- Rule 2 condition of `classify_container` (line 158). -/
def otherProxyRuleMatches (c : ContainerRecord) : Bool :=
  !(detect_proxy_signals c).nginx_proxy_env.isEmpty
    || !(detect_proxy_signals c).caddy_labels.isEmpty

/-- Function `classify_container` from the source, rules in source order. -/
def classify_container (c : ContainerRecord) : String :=
  if traefikRuleMatches c then "already_proxied_traefik"
  else if otherProxyRuleMatches c then "already_proxied_other"
  else if !(get_published_ports c).isEmpty && !(detect_proxy_signals c).has_proxy_signals then
    "exposed_directly"
  else if (get_published_ports c).isEmpty && !(detect_proxy_signals c).has_proxy_signals then
    "internal_only"
  else "unknown_needs_review"

/-- Function `is_http_service` from the source. -/
def is_http_service (c : ContainerRecord) : Bool :=
  let image := lowerStr c.image
  (get_exposed_ports c).any (fun p => HTTP_SERVICE_PORTS.contains (portNum p))
    || WEB_PATTERNS.any (fun pat => containsSub image pat.data)

/-- Source: `container['Name'].lstrip('/')`. -/
def strippedName (c : ContainerRecord) : String :=
  String.mk (c.name.data.dropWhile (fun ch => ch = '/'))

/-- Function `generate_recommended_labels` from the source. -/
def generate_recommended_labels (c : ContainerRecord) : List (String × String) :=
  let name := strippedName c
  let safe_name := String.mk (name.data.map (fun ch =>
    if ch = '-' ∨ ch = '.' then '_' else ch))
  let port :=
    match (get_exposed_ports c).find? (fun p => HTTP_SERVICE_PORTS.contains (portNum p)) with
    | some p => portNum p
    | none => "80"
  [("traefik.enable", "true"),
   ("traefik.http.routers." ++ safe_name ++ ".rule", "Host(`" ++ name ++ ".local`)"),
   ("traefik.http.routers." ++ safe_name ++ ".entrypoints", "websecure"),
   ("traefik.http.routers." ++ safe_name ++ ".tls", "true"),
   ("traefik.http.services." ++ safe_name ++ ".loadbalancer.server.port", port)]

/-- Function `is_candidate_for_migration` from the source. -/
def is_candidate_for_migration (c : ContainerRecord) (classification : String) :
    Bool × String :=
  if is_reverse_proxy c then (false, "Container is a reverse proxy")
  else if "already_proxied".data.isPrefixOf classification.data then
    (false, "Already proxied (" ++ classification ++ ")")
  else if classification = "exposed_directly" then
    if is_http_service c then (true, "HTTP service exposed directly - good migration candidate")
    else (false, "Exposed directly but not an HTTP service")
  else if classification = "internal_only" then
    if is_http_service c then (true, "Internal HTTP service - could benefit from proxy exposure")
    else (false, "Internal service, not HTTP")
  else (false, "Needs manual review")

/-- Function `analyze_risks` from the source; the four note groups are appended in
source order. -/
def analyze_risks (c : ContainerRecord) (published_ports : List (String × List String)) :
    List String :=
  (if published_ports.length > 1 then ["Multiple published ports - may need separate routers"]
   else [])
  ++ (get_exposed_ports c).filterMap (fun p =>
       if HTTP_SERVICE_PORTS.contains (portNum p) then none
       else some ("Non-HTTP port " ++ portNum p ++ " - may need TCP/UDP router"))
  ++ (if (recLabels c).any (fun kv => containsSub (lowerStr kv.1) "auth".data) then
        ["May have authentication requirements"]
      else [])
  ++ STATEFUL_IMAGES.filterMap (fun svc =>
       if containsSub (lowerStr c.image) svc.data then
         some "Stateful database service - typically not proxied"
       else none)

/-- One entry of the manifest's `reverse_proxies` list (`main`, lines
285-295): identity data only, no classification or candidacy field. -/
structure ReverseProxyEntry where
  container_id : String
  container_name : String
  image : String
  status : String
  networks : List String
  published_ports : List (String × List String)
deriving DecidableEq

/-- One entry of the manifest's `containers` list (`main`, lines 297-321). -/
structure AnalysisEntry where
  container_id : String
  container_name : String
  image : String
  status : String
  networks : List String
  published_ports : List (String × List String)
  exposed_ports : List String
  detected_proxy_signals : ProxySignals
  classification : String
  candidate_for_migration : Bool
  migration_reason : String
  recommended_labels : List (String × String)
  recommended_hostnames : List String
  risks_notes : List String
deriving DecidableEq

/-- The reverse-proxy entry `main` builds for a detected proxy. -/
def rpEntry (c : ContainerRecord) : ReverseProxyEntry :=
  { container_id := String.mk (c.id.data.take 12),
    container_name := strippedName c,
    image := c.image,
    status := c.status,
    networks := recNetworks c,
    published_ports := get_published_ports c }

/-- The analysis entry `main` builds for a non-proxy container. -/
def analyzeEntry (c : ContainerRecord) : AnalysisEntry :=
  let classification := classify_container c
  let cand := is_candidate_for_migration c classification
  { container_id := String.mk (c.id.data.take 12),
    container_name := strippedName c,
    image := c.image,
    status := c.status,
    networks := recNetworks c,
    published_ports := get_published_ports c,
    exposed_ports := get_exposed_ports c,
    detected_proxy_signals := detect_proxy_signals c,
    classification := classification,
    candidate_for_migration := cand.1,
    migration_reason := cand.2,
    recommended_labels := if cand.1 then generate_recommended_labels c else [],
    recommended_hostnames := if cand.1 then [strippedName c ++ ".local"] else [],
    risks_notes := analyze_risks c (get_published_ports c) }

/-- One iteration of the partition loop of `main` (lines 277-321): a
reverse proxy goes to the proxy list and `continue` skips all analysis;
every other container is analyzed. -/
def manifestStep (acc : List ReverseProxyEntry × List AnalysisEntry)
    (c : ContainerRecord) : List ReverseProxyEntry × List AnalysisEntry :=
  if is_reverse_proxy c then (acc.1 ++ [rpEntry c], acc.2)
  else (acc.1, acc.2 ++ [analyzeEntry c])

/-- The partition loop of `main` over the whole snapshot. -/
def processContainers (cs : List ContainerRecord) :
    List ReverseProxyEntry × List AnalysisEntry :=
  cs.foldl manifestStep ([], [])

/-- The value a single env entry contributes for key `k`: none when the
entry has no `=`, otherwise the part after the first `=` when the part
before it equals `k`. -/
def envEntryValue (e : String) (k : String) : Option String :=
  match e.data.dropWhile (fun ch => ch != '=') with
  | [] => none
  | _ :: v =>
    if String.mk (e.data.takeWhile (fun ch => ch != '=')) = k then some (String.mk v)
    else none

/-- Spec-side description of the env mapping (for comparison with
`parseEnv`): the value of the last entry whose key is `k`, i.e. entries
later in the list take precedence over earlier ones. -/
def specEnvLastValue : List String → String → Option String
  | [], _ => none
  | e :: es, k => optOr (specEnvLastValue es k) (envEntryValue e k)

/-- Replace every absent/null optional substructure by the explicit empty
collection the accessors default it to. -/
def fillDefaults (c : ContainerRecord) : ContainerRecord :=
  { c with
    labels := some (recLabels c),
    env := some (recEnvList c),
    ports := some (recPorts c),
    exposedPorts := some (recExposed c),
    networks := some (recNetworks c) }

/-- Sample record: HTTP API published directly on 8080/tcp, no proxy
signals (spec section 8 test vector). -/
def sampleApi : ContainerRecord :=
  { id := "0123456789abcdef", name := "/my-app", image := "myapp/api:1.0",
    status := "running", labels := some [], env := some [],
    ports := some [("8080/tcp", [("0.0.0.0", "8080")])],
    exposedPorts := some ["8080/tcp"], networks := some ["bridge"] }

/-- Sample record: stray Traefik label with `traefik.enable=false`, not on
a proxy network, nothing published. -/
def cStray : ContainerRecord :=
  { id := "aaaaaaaaaaaaaaaa", name := "/stray", image := "mytool:1",
    status := "running", labels := some [("traefik.enable", "false")],
    env := none, ports := none, exposedPorts := none,
    networks := some ["backend"] }

/-- Same stray Traefik label, but with a published port. -/
def cStrayPorts : ContainerRecord :=
  { id := "bbbbbbbbbbbbbbbb", name := "/stray2", image := "mytool:1",
    status := "running", labels := some [("traefik.enable", "false")],
    env := none, ports := some [("3000/tcp", [("0.0.0.0", "3000")])],
    exposedPorts := some ["3000/tcp"], networks := some ["backend"] }

/-- Sample record: `traefik.enable=True` (mixed case) and no proxy-pattern
network. -/
def cEnabled : ContainerRecord :=
  { id := "cccccccccccccccc", name := "/enabled", image := "myapp:2",
    status := "running", labels := some [("traefik.enable", "True")],
    env := none, ports := none, exposedPorts := none,
    networks := some ["backend"] }

/-- Sample record: published port, no proxy signals at all. -/
def cPlain : ContainerRecord :=
  { id := "dddddddddddddddd", name := "/plain", image := "busybox:latest",
    status := "exited", labels := none, env := none,
    ports := some [("5000/tcp", [("127.0.0.1", "5000")])],
    exposedPorts := some ["5000/tcp"], networks := some ["backend"] }

/-- Sample record: custom image (matching no known proxy image), both
80/tcp and 443/tcp published, and a Traefik label key. -/
def cCustomRP : ContainerRecord :=
  { id := "eeeeeeeeeeeeeeee", name := "/custom-rp", image := "mycustom-router:2",
    status := "running",
    labels := some [("traefik.http.routers.main.rule", "Host(`x`)")],
    env := none,
    ports := some [("80/tcp", [("0.0.0.0", "80")]), ("443/tcp", [("0.0.0.0", "443")])],
    exposedPorts := some ["80/tcp", "443/tcp"], networks := some ["frontnet"] }

/-- Sample record: plain web server publishing both 80/tcp and 443/tcp
with no traefik indication in image or labels. -/
def cPlainDual : ContainerRecord :=
  { id := "ffffffffffffffff", name := "/plaindual", image := "plainweb:1",
    status := "running", labels := some [("maintainer", "me")], env := none,
    ports := some [("80/tcp", [("0.0.0.0", "80")]), ("443/tcp", [("0.0.0.0", "443")])],
    exposedPorts := some ["80/tcp", "443/tcp"], networks := some ["frontnet"] }

/-- Sample record: a genuine Traefik reverse proxy. -/
def cTraefik : ContainerRecord :=
  { id := "9999999999999999", name := "/traefik", image := "traefik:v3.0",
    status := "running", labels := some [], env := none,
    ports := some [("80/tcp", [("0.0.0.0", "80")]), ("443/tcp", [("0.0.0.0", "443")])],
    exposedPorts := some ["80/tcp", "443/tcp"], networks := some ["edge"] }

/-- The aggregate flag of `detect_proxy_signals` is exactly the disjunction
of the three subset non-emptiness tests. -/
theorem has_proxy_signals_eq (c : ContainerRecord) :
    (detect_proxy_signals c).has_proxy_signals =
      (!(detect_proxy_signals c).traefik_labels.isEmpty
        || !(detect_proxy_signals c).nginx_proxy_env.isEmpty
        || !(detect_proxy_signals c).caddy_labels.isEmpty) := rfl

/-- C10: two records differing only in the lifecycle status string get the
same reverse-proxy verdict, classification, HTTP-service flag, candidacy
decision, risk notes and recommended labels. -/
theorem claim_C10 (c : ContainerRecord) (s : String) :
    is_reverse_proxy { c with status := s } = is_reverse_proxy c
    ∧ classify_container { c with status := s } = classify_container c
    ∧ is_http_service { c with status := s } = is_http_service c
    ∧ (∀ cls, is_candidate_for_migration { c with status := s } cls
        = is_candidate_for_migration c cls)
    ∧ analyze_risks { c with status := s } (get_published_ports { c with status := s })
        = analyze_risks c (get_published_ports c)
    ∧ generate_recommended_labels { c with status := s }
        = generate_recommended_labels c := by
  cases c
  exact ⟨rfl, rfl, rfl, fun _ => rfl, rfl, rfl⟩

/-- C9: a record whose optional substructures are absent/null behaves
exactly like one with the empty collections filled in, every stage of the
chain (signal extraction, port extraction, proxy detection, classification,
candidacy, risks) is a total function on it, and the classification always
reaches one of the five enumerated results. -/
theorem claim_C9 (c : ContainerRecord) (cls : String) :
    detect_proxy_signals (fillDefaults c) = detect_proxy_signals c
    ∧ get_published_ports (fillDefaults c) = get_published_ports c
    ∧ get_exposed_ports (fillDefaults c) = get_exposed_ports c
    ∧ is_reverse_proxy (fillDefaults c) = is_reverse_proxy c
    ∧ classify_container (fillDefaults c) = classify_container c
    ∧ is_candidate_for_migration (fillDefaults c) cls = is_candidate_for_migration c cls
    ∧ analyze_risks (fillDefaults c) (get_published_ports (fillDefaults c))
        = analyze_risks c (get_published_ports c)
    ∧ (classify_container c = "already_proxied_traefik"
        ∨ classify_container c = "already_proxied_other"
        ∨ classify_container c = "exposed_directly"
        ∨ classify_container c = "internal_only"
        ∨ classify_container c = "unknown_needs_review") := by
  refine ⟨rfl, rfl, rfl, rfl, rfl, rfl, rfl, ?_⟩
  unfold classify_container
  split_ifs <;> simp

/-- C7: the direct-exposure test vector: published 8080/tcp, no proxy
signals, image "myapp/api:1.0" classifies as exposed_directly, counts as
an HTTP service, is a migration candidate, gets load-balancer port "8080"
in the recommended label set and the singleton hostname list
["my-app.local"]. -/
theorem claim_C7 :
    classify_container sampleApi = "exposed_directly"
    ∧ is_http_service sampleApi = true
    ∧ (is_candidate_for_migration sampleApi (classify_container sampleApi)).1 = true
    ∧ lookupAssoc (generate_recommended_labels sampleApi)
        "traefik.http.services.my_app.loadbalancer.server.port" = some "8080"
    ∧ (analyzeEntry sampleApi).recommended_hostnames = ["my-app.local"] := by
  exact ⟨by decide, by decide, by decide, by decide, by decide⟩

/-- A non-nil list of label pairs has `isEmpty = false`. -/
theorem isEmpty_false_of_ne_nil {l : List (String × String)} (h : l ≠ []) :
    l.isEmpty = false := by
  cases l with
  | nil => exact absurd rfl h
  | cons a t => rfl

/-- C2: a non-empty Traefik-label subset whose `traefik.enable` value
equals "true" case-insensitively classifies as already_proxied_traefik,
with no condition on network membership. -/
theorem claim_C2 (c : ContainerRecord) (v : String)
    (h1 : (detect_proxy_signals c).traefik_labels ≠ [])
    (h2 : lookupAssoc (detect_proxy_signals c).traefik_labels "traefik.enable" = some v)
    (h3 : lowerStr v = "true".data) :
    classify_container c = "already_proxied_traefik" := by
  have hne := isEmpty_false_of_ne_nil h1
  have htr : traefikRuleMatches c = true := by
    unfold traefikRuleMatches
    rw [hne, h2]
    simp [h3]
  simp [classify_container, htr]

/-- C2 witness: mixed-case "True" enable label, container on no
proxy-pattern network. -/
theorem claim_C2_witness :
    classify_container cEnabled = "already_proxied_traefik"
    ∧ is_in_proxy_network (recNetworks cEnabled) = false :=
  ⟨claim_C2 cEnabled "True" (by decide) (by decide) (by decide), by decide⟩

/-- C3: a non-empty Traefik-label subset whose `traefik.enable` value is
not "true" (after lower-casing, missing mapped to ""), off proxy-pattern
networks, with empty nginx-proxy-env and Caddy subsets, classifies as
unknown_needs_review and never as already_proxied_traefik; the published
ports play no role. -/
theorem claim_C3 (c : ContainerRecord)
    (h1 : (detect_proxy_signals c).traefik_labels ≠ [])
    (h2 : lowerStr ((lookupAssoc (detect_proxy_signals c).traefik_labels
            "traefik.enable").getD "") ≠ "true".data)
    (h3 : is_in_proxy_network (recNetworks c) = false)
    (h4 : (detect_proxy_signals c).nginx_proxy_env = [])
    (h5 : (detect_proxy_signals c).caddy_labels = []) :
    classify_container c = "unknown_needs_review"
    ∧ classify_container c ≠ "already_proxied_traefik" := by
  have hne := isEmpty_false_of_ne_nil h1
  have htr : traefikRuleMatches c = false := by
    unfold traefikRuleMatches
    rw [hne, h3]
    simp [h2]
  have hot : otherProxyRuleMatches c = false := by
    simp [otherProxyRuleMatches, h4, h5]
  have hhas : (detect_proxy_signals c).has_proxy_signals = true := by
    rw [has_proxy_signals_eq, hne]
    rfl
  have hcl : classify_container c = "unknown_needs_review" := by
    simp [classify_container, htr, hot, hhas]
  exact ⟨hcl, by rw [hcl]; decide⟩

/-- C3 witness: the stray `traefik.enable=false` container, once without
and once with a published port, is unknown_needs_review in both cases. -/
theorem claim_C3_witness :
    (classify_container cStray = "unknown_needs_review"
      ∧ classify_container cStray ≠ "already_proxied_traefik")
    ∧ (classify_container cStrayPorts = "unknown_needs_review"
      ∧ classify_container cStrayPorts ≠ "already_proxied_traefik")
    ∧ get_published_ports cStray = []
    ∧ get_published_ports cStrayPorts ≠ [] :=
  ⟨claim_C3 cStray (by decide) (by decide) (by decide) (by decide) (by decide),
   claim_C3 cStrayPorts (by decide) (by decide) (by decide) (by decide) (by decide),
   by decide, by decide⟩

/-- When no proxy signal at all is present, the classifier decides purely
by published-port presence. -/
theorem classify_no_signals (c : ContainerRecord)
    (h : (detect_proxy_signals c).has_proxy_signals = false) :
    classify_container c =
      if (get_published_ports c).isEmpty then "internal_only"
      else "exposed_directly" := by
  cases ht : (detect_proxy_signals c).traefik_labels.isEmpty with
  | false =>
    exfalso
    rw [has_proxy_signals_eq, ht] at h
    simp at h
  | true =>
    have htr : traefikRuleMatches c = false := by
      unfold traefikRuleMatches
      rw [ht]
      rfl
    cases hn : (detect_proxy_signals c).nginx_proxy_env.isEmpty with
    | false =>
      exfalso
      rw [has_proxy_signals_eq, hn] at h
      simp at h
    | true =>
      cases hc : (detect_proxy_signals c).caddy_labels.isEmpty with
      | false =>
        exfalso
        rw [has_proxy_signals_eq, hc] at h
        simp at h
      | true =>
        have hot : otherProxyRuleMatches c = false := by
          unfold otherProxyRuleMatches
          rw [hn, hc]
          rfl
        cases hp : (get_published_ports c).isEmpty with
        | false => simp [classify_container, htr, hot, h, hp]
        | true => simp [classify_container, htr, hot, h, hp]

/-- C4: unknown_needs_review is reached only with the aggregate signal
flag set; with all three subsets empty the result is decided by published
ports; and present signals with no published ports that match neither
rule 1 nor rule 2 also fall to unknown_needs_review. -/
theorem claim_C4 (c : ContainerRecord) :
    (classify_container c = "unknown_needs_review" →
      (detect_proxy_signals c).has_proxy_signals = true)
    ∧ ((detect_proxy_signals c).traefik_labels = [] →
      (detect_proxy_signals c).nginx_proxy_env = [] →
      (detect_proxy_signals c).caddy_labels = [] →
      classify_container c =
        if (get_published_ports c).isEmpty then "internal_only"
        else "exposed_directly")
    ∧ ((detect_proxy_signals c).has_proxy_signals = true →
      get_published_ports c = [] →
      traefikRuleMatches c = false →
      otherProxyRuleMatches c = false →
      classify_container c = "unknown_needs_review") := by
  refine ⟨?_, ?_, ?_⟩
  · intro h
    cases hhas : (detect_proxy_signals c).has_proxy_signals with
    | true => rfl
    | false =>
      exfalso
      rw [classify_no_signals c hhas] at h
      revert h
      cases hp : (get_published_ports c).isEmpty <;> simp
  · intro h1 h2 h3
    have hhas : (detect_proxy_signals c).has_proxy_signals = false := by
      rw [has_proxy_signals_eq, h1, h2, h3]
      rfl
    exact classify_no_signals c hhas
  · intro hhas hpub h1 h2
    simp [classify_container, h1, h2, hpub, hhas]

/-- C4 witness: a stray-signal container both witnesses the flag
implication and the no-published-port fallthrough; a signal-free container
with a published port witnesses the empty-subset branch. -/
theorem claim_C4_witness :
    (detect_proxy_signals cStray).has_proxy_signals = true
    ∧ classify_container cPlain =
        (if (get_published_ports cPlain).isEmpty then "internal_only"
         else "exposed_directly")
    ∧ classify_container cStray = "unknown_needs_review" :=
  ⟨(claim_C4 cStray).1 (by decide),
   (claim_C4 cPlain).2.1 (by decide) (by decide) (by decide),
   (claim_C4 cStray).2.2 (by decide) (by decide) (by decide) (by decide)⟩

/-- C1: the candidacy decision is true exactly when the container is not a
reverse proxy, the classification is exposed_directly or internal_only,
and the container is an HTTP service; already_proxied_* and
unknown_needs_review are never candidates. -/
theorem claim_C1 (c : ContainerRecord) (cls : String) :
    (is_candidate_for_migration c cls).1 = true ↔
      (is_reverse_proxy c = false
        ∧ (cls = "exposed_directly" ∨ cls = "internal_only")
        ∧ is_http_service c = true) := by
  unfold is_candidate_for_migration
  by_cases hrp : is_reverse_proxy c = true
  · simp [hrp]
  · have hrp' : is_reverse_proxy c = false := by
      revert hrp
      cases is_reverse_proxy c <;> simp
    by_cases hpre : "already_proxied".data.isPrefixOf cls.data = true
    · have hx : cls ≠ "exposed_directly" := by
        rintro rfl
        revert hpre
        decide
      have hy : cls ≠ "internal_only" := by
        rintro rfl
        revert hpre
        decide
      simp [hrp', hpre, hx, hy]
    · by_cases hx : cls = "exposed_directly"
      · subst hx
        cases hh : is_http_service c <;> simp [hrp', hpre, hh]
      · by_cases hy : cls = "internal_only"
        · subst hy
          cases hh : is_http_service c <;> simp [hrp', hpre, hx, hh]
        · simp [hrp', hpre, hx, hy]

/-- A Bool-valued ite collapsing helper. -/
theorem if_bool_id (b : Bool) : (if b then true else false) = b := by
  cases b <;> rfl

/-- C5: for an image matching no known reverse-proxy image, detection
holds exactly when both 80/tcp and 443/tcp have bindings and a traefik
indication exists in the image reference or some label key; a bare dual
80+443 publisher is not detected. -/
theorem claim_C5 (c : ContainerRecord)
    (h : ∀ p ∈ REVERSE_PROXY_IMAGES, containsSub (lowerStr c.image) p.data = false) :
    is_reverse_proxy c = true ↔
      (portHasBindings c "80/tcp" = true ∧ portHasBindings c "443/tcp" = true
        ∧ (containsSub (lowerStr c.image) "traefik".data = true
            ∨ ∃ kv ∈ recLabels c, containsSub (lowerStr kv.1) "traefik".data = true)) := by
  have hany : REVERSE_PROXY_IMAGES.any (fun p => containsSub (lowerStr c.image) p.data)
      = false := by
    simp only [List.any_eq_false]
    intro p hp
    simp [h p hp]
  unfold is_reverse_proxy
  simp only [hany]
  cases h80 : portHasBindings c "80/tcp" <;>
    cases h443 : portHasBindings c "443/tcp" <;>
      simp [h80, h443, if_bool_id, List.any_eq_true]

/-- C5 witness: a custom dual-port image with a traefik label key is
detected; a plain dual-port web server with no traefik indication is not. -/
theorem claim_C5_witness :
    ((∀ p ∈ REVERSE_PROXY_IMAGES, containsSub (lowerStr cCustomRP.image) p.data = false)
      ∧ is_reverse_proxy cCustomRP = true)
    ∧ ((∀ p ∈ REVERSE_PROXY_IMAGES, containsSub (lowerStr cPlainDual.image) p.data = false)
      ∧ is_reverse_proxy cPlainDual = false) :=
  ⟨⟨by decide, (claim_C5 cCustomRP (by decide)).mpr (by decide)⟩,
   ⟨by decide, by decide⟩⟩

/-- The partition fold appends, to any accumulator, the reverse-proxy
entries of the proxies and the analysis entries of the rest, in snapshot
order. -/
theorem processContainers_go (cs : List ContainerRecord) :
    ∀ a b, cs.foldl manifestStep (a, b) =
      (a ++ (cs.filter (fun c => is_reverse_proxy c)).map rpEntry,
       b ++ (cs.filter (fun c => !is_reverse_proxy c)).map analyzeEntry) := by
  induction cs with
  | nil => intro a b; simp
  | cons c cs ih =>
    intro a b
    rw [List.foldl_cons]
    cases hc : is_reverse_proxy c with
    | false =>
      have hstep : manifestStep (a, b) c = (a, b ++ [analyzeEntry c]) := by
        simp [manifestStep, hc]
      rw [hstep, ih]
      simp [List.filter_cons, hc]
    | true =>
      have hstep : manifestStep (a, b) c = (a ++ [rpEntry c], b) := by
        simp [manifestStep, hc]
      rw [hstep, ih]
      simp [List.filter_cons, hc]

/-- The two filters split the snapshot length. -/
theorem length_filter_split (cs : List ContainerRecord) :
    (cs.filter (fun c => is_reverse_proxy c)).length
      + (cs.filter (fun c => !is_reverse_proxy c)).length = cs.length := by
  induction cs with
  | nil => rfl
  | cons c cs ih =>
    cases hc : is_reverse_proxy c <;> simp [List.filter_cons, hc] <;> omega

/-- C6: the manifest partition: detected reverse proxies all land in the
reverse-proxy list, every analysis entry stems from a non-proxy container
(so no proxy ever gets a classification or candidacy decision), and the
two lists exactly partition the snapshot. -/
theorem claim_C6 (cs : List ContainerRecord) :
    (processContainers cs).1 = (cs.filter (fun c => is_reverse_proxy c)).map rpEntry
    ∧ (processContainers cs).2
        = (cs.filter (fun c => !is_reverse_proxy c)).map analyzeEntry
    ∧ (∀ c ∈ cs, is_reverse_proxy c = true → rpEntry c ∈ (processContainers cs).1)
    ∧ (∀ e ∈ (processContainers cs).2,
        ∃ c, c ∈ cs ∧ is_reverse_proxy c = false ∧ e = analyzeEntry c)
    ∧ (processContainers cs).1.length + (processContainers cs).2.length = cs.length := by
  have hgo := processContainers_go cs [] []
  have h1 : (processContainers cs).1
      = (cs.filter (fun c => is_reverse_proxy c)).map rpEntry := by
    rw [processContainers, hgo]
    simp
  have h2 : (processContainers cs).2
      = (cs.filter (fun c => !is_reverse_proxy c)).map analyzeEntry := by
    rw [processContainers, hgo]
    simp
  refine ⟨h1, h2, ?_, ?_, ?_⟩
  · intro c hc hrp
    rw [h1]
    exact List.mem_map_of_mem _ (List.mem_filter.mpr ⟨hc, hrp⟩)
  · intro e he
    rw [h2] at he
    obtain ⟨c, hc, rfl⟩ := List.mem_map.mp he
    obtain ⟨hcs, hnp⟩ := List.mem_filter.mp hc
    exact ⟨c, hcs, by simpa using hnp, rfl⟩
  · rw [h1, h2]
    simp [length_filter_split cs]

/-- C6 witness: a two-container snapshot with one Traefik proxy and one
plain application splits one-and-one. -/
theorem claim_C6_witness :
    rpEntry cTraefik ∈ (processContainers [cTraefik, sampleApi]).1
    ∧ (processContainers [cTraefik, sampleApi]).1.length
        + (processContainers [cTraefik, sampleApi]).2.length = 2 :=
  ⟨(claim_C6 [cTraefik, sampleApi]).2.2.1 cTraefik (by simp) (by decide),
   (claim_C6 [cTraefik, sampleApi]).2.2.2.2⟩

/-- Dict assignment then lookup: the assigned key reads the new value,
every other key is unaffected. -/
theorem lookupAssoc_insertAssoc (m : List (String × String)) (k v k' : String) :
    lookupAssoc (insertAssoc m k v) k' = if k' = k then some v else lookupAssoc m k' := by
  induction m with
  | nil =>
    by_cases h : k' = k
    · subst h
      simp [insertAssoc, lookupAssoc, List.find?]
    · have hb : (k == k') = false := by
        simp
        exact fun he => h he.symm
      simp [insertAssoc, lookupAssoc, List.find?, hb, h]
  | cons p ps ih =>
    rcases p with ⟨pk, pv⟩
    by_cases h1 : pk = k
    · by_cases h2 : k' = k
      · subst h2
        have hb : (pk == k') = true := by simp [h1]
        simp [insertAssoc, h1, lookupAssoc, List.find?, hb]
      · have hb : (pk == k') = false := by
          simp
          exact fun he => h2 (he.symm.trans h1)
        have hb2 : (k == k') = false := by
          simp
          exact fun he => h2 he.symm
        simp [insertAssoc, h1, lookupAssoc, List.find?, hb, hb2, h2]
    · by_cases h2 : pk = k'
      · have hb : (pk == k') = true := by simp [h2]
        have hk : ¬ k' = k := fun he => h1 (h2.trans he)
        simp [insertAssoc, h1, lookupAssoc, List.find?, hb, hk]
      · have hb : (pk == k') = false := by simp [h2]
        have lhs' : lookupAssoc ((pk, pv) :: insertAssoc ps k v) k'
            = lookupAssoc (insertAssoc ps k v) k' := by
          simp [lookupAssoc, List.find?, hb]
        have rhs' : lookupAssoc ((pk, pv) :: ps) k' = lookupAssoc ps k' := by
          simp [lookupAssoc, List.find?, hb]
        simp only [insertAssoc, if_neg h1]
        rw [lhs', ih, rhs']

/-- One env entry folded into the dict, observed through lookup: the
entry's own contribution takes precedence over the accumulator. -/
theorem envStep_lookup (m : List (String × String)) (e : String) (k : String) :
    lookupAssoc (envStep m e) k = optOr (envEntryValue e k) (lookupAssoc m k) := by
  unfold envStep envEntryValue
  cases hd : e.data.dropWhile (fun ch => ch != '=') with
  | nil => simp [optOr]
  | cons x v =>
    rw [lookupAssoc_insertAssoc]
    by_cases hk : String.mk (e.data.takeWhile (fun ch => ch != '=')) = k
    · simp [hk, optOr]
    · have hk' : ¬ k = String.mk (e.data.takeWhile (fun ch => ch != '=')) :=
        fun he => hk he.symm
      simp [hk, hk', optOr]

/-- Function `optOr` is associative. -/
theorem optOr_assoc (a b c : Option String) :
    optOr (optOr a b) c = optOr a (optOr b c) := by
  cases a <;> rfl

/-- Folding env entries over any accumulator realizes the last-wins spec
mapping, falling back to the accumulator. -/
theorem parseEnv_go (es : List String) :
    ∀ (m : List (String × String)) (k : String),
      lookupAssoc (es.foldl envStep m) k = optOr (specEnvLastValue es k) (lookupAssoc m k) := by
  induction es with
  | nil =>
    intro m k
    simp [specEnvLastValue, optOr]
  | cons e es ih =>
    intro m k
    rw [List.foldl_cons, ih, envStep_lookup]
    show optOr (specEnvLastValue es k) (optOr (envEntryValue e k) (lookupAssoc m k))
      = optOr (specEnvLastValue (e :: es) k) (lookupAssoc m k)
    rw [specEnvLastValue, optOr_assoc]

/-- Entries with no '=' leave the fold unchanged, over any accumulator. -/
theorem parseEnv_skip (es : List String) :
    ∀ m : List (String × String),
      (es.filter (fun e => e.data.any (fun ch => ch == '='))).foldl envStep m
        = es.foldl envStep m := by
  induction es with
  | nil => intro m; rfl
  | cons e es ih =>
    intro m
    by_cases h : e.data.any (fun ch => ch == '=') = true
    · simp only [List.filter_cons, h, if_true, List.foldl_cons]
      exact ih (envStep m e)
    · have hall : ∀ ch ∈ e.data, (ch != '=') = true := by
        intro ch hch
        have : (ch == '=') = false := by
          revert h
          cases hce : (ch == '=')
          · simp
          · intro hfalse
            exact absurd (List.any_eq_true.mpr ⟨ch, hch, hce⟩) hfalse
        simp [bne, this]
      have hdrop : e.data.dropWhile (fun ch => ch != '=') = [] :=
        List.dropWhile_eq_nil_iff.mpr hall
      have hstep : ∀ m' : List (String × String), envStep m' e = m' := by
        intro m'
        unfold envStep
        rw [hdrop]
      have hfalse : (e.data.any (fun ch => ch == '=')) = false := by
        revert h
        cases e.data.any (fun ch => ch == '=') <;> simp
      simp only [List.filter_cons, hfalse, Bool.false_eq_true, if_false, List.foldl_cons,
        hstep, ih]

/-- C8: env parsing is lenient and last-wins: entries without '=' are
skipped without effect, and for every key the parsed mapping holds the
value of the last entry with that key, split at its first '='. -/
theorem claim_C8 (es : List String) (k : String) :
    lookupAssoc (parseEnv es) k = specEnvLastValue es k
    ∧ parseEnv (es.filter (fun e => e.data.any (fun ch => ch == '='))) = parseEnv es := by
  constructor
  · rw [parseEnv, parseEnv_go es [] k]
    cases specEnvLastValue es k <;> rfl
  · exact parseEnv_skip es []
